import Mathlib

/-!
Verification of the protocol-gateway-sandbox host runtimes.

The repository contains three progressive host runtimes for a pool of
sandboxed wasm instances:

* `host/runtime.js` (single instance, cold restart)  — modelled in
  namespace `ColdRestart`;
* `host/runtime.js` (two instances, hot-standby)     — modelled in
  namespace `HotStandby`;
* `host/runtime.js` (three instances, 2oo3 voting)   — modelled in
  namespace `Tmr`.

JavaScript values produced by the sandboxed program are modelled by
`JSValue`; the voter compares outcomes by `JSON.stringify`, which is
modelled by `stringify` below.  The wasm invocation
(`instance.exports.run(frame)`, left as a parameter in the source) is
modelled by an `InvokeResult` argument: each instance either returns a
value or throws an error with a message.  Module-level mutable state of
each runtime is modelled by an explicit state record threaded through
the operations, and a fire-and-forget asynchronous rebuild is modelled
by a queue of pending rebuild tasks plus a separate completion step.
-/

/-- Model of a JavaScript (JSON-representable) value.  Object fields keep
their insertion order, as JavaScript objects do. -/
inductive JSValue where
  | null : JSValue
  | bool (b : Bool) : JSValue
  | num (n : Int) : JSValue
  | str (s : String) : JSValue
  | arr (elems : List JSValue) : JSValue
  | obj (fields : List (String × JSValue)) : JSValue

/-- JSON escape of a single character (the cases relevant to
`JSON.stringify`: quote, backslash and the common control characters). -/
def escChar (c : Char) : List Char :=
  if c = '"' then ['\\', '"']
  else if c = '\\' then ['\\', '\\']
  else if c = '\n' then ['\\', 'n']
  else if c = '\t' then ['\\', 't']
  else if c = '\r' then ['\\', 'r']
  else [c]

/-- JSON escape of a string body. -/
def escape (s : String) : String :=
  ⟨(s.data.map escChar).flatten⟩

mutual

/-- Model of `JSON.stringify` on `JSValue`: serializes object fields in
their stored (insertion) order. -/
def stringify : JSValue → String
  | .null => "null"
  | .bool true => "true"
  | .bool false => "false"
  | .num n => toString n
  | .str s => "\"" ++ escape s ++ "\""
  | .arr es => "[" ++ stringifyList es ++ "]"
  | .obj fs => "\x7b" ++ stringifyFields fs ++ "\x7d"

/-- Comma-separated serialization of array elements. -/
def stringifyList : List JSValue → String
  | [] => ""
  | [v] => stringify v
  | v :: vs => stringify v ++ "," ++ stringifyList vs

/-- Comma-separated serialization of object fields, in stored order. -/
def stringifyFields : List (String × JSValue) → String
  | [] => ""
  | [(k, v)] => "\"" ++ escape k ++ "\":" ++ stringify v
  | (k, v) :: fs => "\"" ++ escape k ++ "\":" ++ stringify v ++ "," ++ stringifyFields fs

end

/-- Boolean test that `pat` is a leading segment of `s` (character lists). -/
def leadMatch : List Char → List Char → Bool
  | [], _ => true
  | _ :: _, [] => false
  | a :: as, b :: bs => a == b && leadMatch as bs

/-- Boolean test that `pat` occurs as a contiguous segment of `s`
(character lists). -/
def hasSeg (pat : List Char) : List Char → Bool
  | [] => leadMatch pat []
  | c :: cs => leadMatch pat (c :: cs) || hasSeg pat cs

/-- Model of JavaScript `s.includes(pat)`. -/
def includesStr (s pat : String) : Bool :=
  hasSeg pat.data s.data

/-- Model of the trap test used by every runtime variant:
`error.message.includes('wasm trap') || error.message.includes('unreachable')
|| error.message.includes('out of bounds')`. -/
def isTrapMsg (m : String) : Bool :=
  includesStr m "wasm trap" || includesStr m "unreachable" || includesStr m "out of bounds"

/-- Behaviour of one wasm invocation `instance.exports.run(frame)`:
either a returned value or a thrown error carrying a message. -/
inductive InvokeResult where
  | ok (v : JSValue) : InvokeResult
  | throwErr (msg : String) : InvokeResult

/-- Model of a live wasm instance: it records the identity of the
compiled module it was instantiated from (`WebAssembly.instantiate`
always receives the cached `compiledModule`). -/
structure WasmInstance where
  fromModule : Nat
deriving DecidableEq

namespace Tmr

/-- Mutable statistics object of the 2oo3 runtime (`stats` in
`host/runtime.js`). -/
structure Stats where
  crashCount : Nat
  voteCount : Nat
  unanimousVotes : Nat
  majorityVotes : Nat
  splitVotes : Nat
  totalFrames : Nat
  lastRebuildTimeMs : Nat
  lastFaultyInstance : Int

/-- Vote object returned by `vote`: `faulty` is `none` for the JS
`null`, `some (-1)` for the undeterminable case, and `critical` models
the presence of the `critical: true` field. -/
structure VoteRes where
  result : Option JSValue
  unanimous : Bool
  faulty : Option Int
  agreement : String
  critical : Bool

/-- Model of `vote(results)` of the 2oo3 runtime: increments `voteCount`,
serializes the three results with `JSON.stringify` and compares the
serializations, exactly following the source's branch order. -/
def vote (s : Stats) (results : Fin 3 → JSValue) : Stats × VoteRes :=
  let s := { s with voteCount := s.voteCount + 1 }
  let r0 := stringify (results 0)
  let r1 := stringify (results 1)
  let r2 := stringify (results 2)
  if r0 = r1 ∧ r1 = r2 then
    ({ s with unanimousVotes := s.unanimousVotes + 1 },
     ⟨some (results 0), true, none, "3/3", false⟩)
  else if r0 = r1 then
    ({ s with majorityVotes := s.majorityVotes + 1, lastFaultyInstance := 2 },
     ⟨some (results 0), false, some 2, "2/3", false⟩)
  else if r0 = r2 then
    ({ s with majorityVotes := s.majorityVotes + 1, lastFaultyInstance := 1 },
     ⟨some (results 0), false, some 1, "2/3", false⟩)
  else if r1 = r2 then
    ({ s with majorityVotes := s.majorityVotes + 1, lastFaultyInstance := 0 },
     ⟨some (results 1), false, some 0, "2/3", false⟩)
  else
    ({ s with splitVotes := s.splitVotes + 1 },
     ⟨none, false, some (-1), "0/3", true⟩)

/-- Trap outcome object produced by the 2oo3 `processFrame` when an
invocation throws a wasm trap:
`{ trapped: true, instance: idx, error: error.message }`. -/
def trapOutcome (idx : Fin 3) (m : String) : JSValue :=
  .obj [("trapped", .bool true), ("instance", .num (idx.val : Int)), ("error", .str m)]

/-- Effect of one slot's dispatch callback on the statistics and its
produced outcome: a returned value is the outcome; a thrown error that
is a wasm trap increments `crashCount` and becomes a trap outcome; any
other thrown error is re-thrown out of the callback. -/
def runSlot (s : Stats) (idx : Fin 3) : InvokeResult → Stats × Except String JSValue
  | .ok v => (s, .ok v)
  | .throwErr m =>
    if isTrapMsg m then
      ({ s with crashCount := s.crashCount + 1 }, .ok (trapOutcome idx m))
    else (s, .error m)

/-- Result object returned by the 2oo3 `processFrame`; fields that are
absent in some return branches are modelled as `Option`/`Bool`. -/
structure FrameResult where
  success : Bool
  vote : Option String
  faultyInstance : Option Int
  result : Option JSValue
  critical : Bool

/-- Module-level mutable state of the 2oo3 runtime: the cached compiled
module (`none` before compilation; compilations are numbered by a
generation counter so a re-compile is observable as a reference change),
the count of `WebAssembly.compile` calls, the three pool slots, the
health flags, the statistics, and the queue of scheduled but not yet
completed asynchronous rebuild tasks. -/
structure State where
  compiledModule : Option Nat
  compileCount : Nat
  pool : Fin 3 → Option WasmInstance
  health : Fin 3 → Bool
  stats : Stats
  pending : List Int

/-- Model of `compileModule()`: compiles the wasm buffer and replaces the
cached `compiledModule` reference with a fresh module. -/
def compileModule (st : State) : State :=
  { st with compiledModule := some st.compileCount, compileCount := st.compileCount + 1 }

/-- Model of `initializePool()`: creates three instances from the cached
module and installs them with all health flags true.  Instantiating a
null module rejects. -/
def initializePool (st : State) : State × Except String Unit :=
  match st.compiledModule with
  | none => (st, .error "instantiate: module is null")
  | some m =>
    ({ st with pool := fun _ => some ⟨m⟩, health := fun _ => true }, .ok ())

/-- Model of `createGateway()`: compile once, then initialize the pool. -/
def createGateway (st : State) : State × Except String Unit :=
  initializePool (compileModule st)

/-- Initial module state of the 2oo3 runtime, before `createGateway`. -/
def initState : State :=
  { compiledModule := none, compileCount := 0, pool := fun _ => none,
    health := fun _ => true,
    stats := ⟨0, 0, 0, 0, 0, 0, 0, -1⟩, pending := [] }

/-- Fan-out of one frame over the three pool slots
(`instancePool.map(...)` awaited by `Promise.all`): the statistics
effects of the three callbacks are accumulated and their settled
outcomes collected. -/
def dispatch (s : Stats) (invoke : Fin 3 → InvokeResult) :
    Stats × (Except String JSValue × Except String JSValue × Except String JSValue) :=
  match runSlot s 0 (invoke 0) with
  | (s0, e0) =>
    match runSlot s0 1 (invoke 1) with
    | (s1, e1) =>
      match runSlot s1 2 (invoke 2) with
      | (s2, e2) => (s2, (e0, e1, e2))

/-- Handling of the voting outcome: the four return branches of
`processFrame` once `vote` has been computed.  A non-negative faulty
index schedules an asynchronous rebuild: the health flag of that slot is
cleared and a pending task enqueued, nothing else of the rebuild is
awaited. -/
def settleVote (st : State) (voted : Stats × VoteRes) :
    State × Except String FrameResult :=
  if voted.2.unanimous then
    ({ st with stats := voted.1 },
     .ok ⟨true, some voted.2.agreement, none, voted.2.result, false⟩)
  else if (match voted.2.faulty with
           | some k => decide (0 ≤ k)
           | none => false) then
    ({ st with stats := voted.1,
               health := fun i =>
                 if (i.val : Int) = voted.2.faulty.getD (-1) then false
                 else st.health i,
               pending := st.pending ++ [voted.2.faulty.getD (-1)] },
     .ok ⟨true, some voted.2.agreement, some (voted.2.faulty.getD (-1)),
          voted.2.result, false⟩)
  else if voted.2.critical then
    ({ st with stats := voted.1 },
     .ok ⟨false, some voted.2.agreement, none, none, true⟩)
  else
    ({ st with stats := voted.1 }, .ok ⟨false, none, none, none, false⟩)

/-- Model of `processFrame(frame)` of the 2oo3 runtime.  The behaviour of
`instance.exports.run(frame)` on this frame is the `invoke` parameter,
one behaviour per slot.  All three pool slots are dispatched, traps are
converted to trap outcomes, the outcomes are voted on and the voting
outcome is settled into the returned result object. -/
def processFrame (st : State) (invoke : Fin 3 → InvokeResult) :
    State × Except String FrameResult :=
  if st.pool 0 = none ∨ st.pool 1 = none ∨ st.pool 2 = none then
    (st, .error "Gateway not initialized - call createGateway() first")
  else
    match dispatch { st.stats with totalFrames := st.stats.totalFrames + 1 } invoke with
    | (s, (.ok v0, .ok v1, .ok v2)) => settleVote st (vote s ![v0, v1, v2])
    | (s, (.error m, _, _)) => ({ st with stats := s }, .error m)
    | (s, (.ok _, .error m, _)) => ({ st with stats := s }, .error m)
    | (s, (.ok _, .ok _, .error m)) => ({ st with stats := s }, .error m)

/-- Model of the completion of `rebuildInstanceAsync(index)`: a fresh
instance from the cached module is installed at the slot, the health
flag is restored and the rebuild time recorded; the pending task is
retired.  When instantiation rejects, the caller's `.catch` swallows the
error and the slot is left as it was. -/
def rebuildComplete (st : State) (index : Int) (loadTime : Nat) : State :=
  match st.compiledModule with
  | none => { st with pending := st.pending.erase index }
  | some m =>
    { st with
      pool := fun i => if (i.val : Int) = index then some ⟨m⟩ else st.pool i,
      health := fun i => if (i.val : Int) = index then true else st.health i,
      stats := { st.stats with lastRebuildTimeMs := loadTime },
      pending := st.pending.erase index }

/-- Model of `reload(index)`: creates a fresh instance from the cached
module and installs it at the slot, marking it healthy; returns the
instantiation time. -/
def reload (st : State) (index : Fin 3) (loadTime : Nat) : State × Except String Nat :=
  match st.compiledModule with
  | none => (st, .error "instantiate: module is null")
  | some m =>
    ({ st with pool := Function.update st.pool index (some ⟨m⟩),
               health := Function.update st.health index true },
     .ok loadTime)

/-- Snapshot object returned by `getStats()` of the 2oo3 runtime. -/
structure GatewayStats where
  crashCount : Nat
  totalFrames : Nat
  moduleLoaded : Bool
  poolSize : Nat
  instancesHealthy : Nat
  voteCount : Nat
  unanimousVotes : Nat
  majorityVotes : Nat
  splitVotes : Nat
  lastFaultyInstance : Int
  lastRebuildTimeMs : Nat

/-- Model of `getStats()`: a read-only snapshot of the module state. -/
def getStats (st : State) : State × GatewayStats :=
  (st,
   { crashCount := st.stats.crashCount,
     totalFrames := st.stats.totalFrames,
     moduleLoaded := st.compiledModule.isSome,
     poolSize := 3,
     instancesHealthy := (List.finRange 3).countP (fun i => st.health i),
     voteCount := st.stats.voteCount,
     unanimousVotes := st.stats.unanimousVotes,
     majorityVotes := st.stats.majorityVotes,
     splitVotes := st.stats.splitVotes,
     lastFaultyInstance := st.stats.lastFaultyInstance,
     lastRebuildTimeMs := st.stats.lastRebuildTimeMs })

end Tmr

namespace HotStandby

/-- Mutable statistics object of the hot-standby runtime. -/
structure Stats where
  crashCount : Nat
  totalFrames : Nat
  switchoverCount : Nat
  coldRestarts : Nat
  lastSwitchoverTimeUs : Nat
  lastRebuildTimeMs : Nat

/-- Module-level mutable state of the hot-standby runtime: cached
compiled module, compile generation counter, two pool slots, the active
index, statistics, and pending asynchronous rebuild tasks. -/
structure State where
  compiledModule : Option Nat
  compileCount : Nat
  pool : Fin 2 → Option WasmInstance
  activeIndex : Fin 2
  stats : Stats
  pending : List (Fin 2)

/-- Result object returned by the hot-standby `processFrame`.
The JS field named `instance` is modelled as `instanceIdx`. -/
structure FrameResult where
  success : Bool
  instanceIdx : Option (Fin 2)
  failover : Bool
  newInstance : Option (Fin 2)

/-- Model of `(activeIndex + 1) % 2`. -/
def otherIdx (a : Fin 2) : Fin 2 := ⟨(a.val + 1) % 2, by omega⟩

/-- Model of `processFrame(frame)` of the hot-standby runtime.  Only the
active instance is invoked; `invoke` gives each instance's behaviour on
this frame and `switchTimeUs` the measured switchover latency.  On a
wasm trap the active index flips, the failed index is scheduled for an
asynchronous rebuild (not awaited), and a failure-with-failover result
object is returned; a non-trap error is re-thrown. -/
def processFrame (st : State) (invoke : Fin 2 → InvokeResult) (switchTimeUs : Nat) :
    State × Except String FrameResult :=
  if st.pool st.activeIndex = none then
    (st, .error "Gateway not initialized - call createGateway() first")
  else
    let s := { st.stats with totalFrames := st.stats.totalFrames + 1 }
    match invoke st.activeIndex with
    | .ok _ => ({ st with stats := s }, .ok ⟨true, some st.activeIndex, false, none⟩)
    | .throwErr m =>
      if isTrapMsg m then
        let failedIndex := st.activeIndex
        let newActive := otherIdx st.activeIndex
        let s := { s with crashCount := s.crashCount + 1,
                          switchoverCount := s.switchoverCount + 1,
                          lastSwitchoverTimeUs := switchTimeUs }
        ({ st with stats := s, activeIndex := newActive,
                   pending := st.pending ++ [failedIndex] },
         .ok ⟨false, none, true, some newActive⟩)
      else
        ({ st with stats := s }, .error m)

/-- Model of the completion of `rebuildInstanceAsync(index)` in the
hot-standby runtime: install the fresh instance, record the rebuild
time, count a cold restart, retire the pending task.  A rejected
instantiation is swallowed by the caller's `.catch`. -/
def rebuildComplete (st : State) (index : Fin 2) (loadTime : Nat) : State :=
  match st.compiledModule with
  | none => { st with pending := st.pending.erase index }
  | some m =>
    { st with
      pool := Function.update st.pool index (some ⟨m⟩),
      stats := { st.stats with lastRebuildTimeMs := loadTime,
                               coldRestarts := st.stats.coldRestarts + 1 },
      pending := st.pending.erase index }

/-- Model of `reload()`: replace the active instance with a fresh one
from the cached module and count a cold restart. -/
def reload (st : State) (loadTime : Nat) : State × Except String Nat :=
  match st.compiledModule with
  | none => (st, .error "instantiate: module is null")
  | some m =>
    ({ st with pool := Function.update st.pool st.activeIndex (some ⟨m⟩),
               stats := { st.stats with coldRestarts := st.stats.coldRestarts + 1 } },
     .ok loadTime)

/-- Snapshot object returned by `getStats()` of the hot-standby runtime. -/
structure GatewayStats where
  crashCount : Nat
  totalFrames : Nat
  moduleLoaded : Bool
  poolSize : Nat
  activeInstance : Fin 2
  standbyInstance : Fin 2
  instancesReady : Nat
  switchoverCount : Nat
  lastSwitchoverTimeUs : Nat
  lastRebuildTimeMs : Nat
  coldRestarts : Nat

/-- Model of `getStats()`: a read-only snapshot of the module state. -/
def getStats (st : State) : State × GatewayStats :=
  (st,
   { crashCount := st.stats.crashCount,
     totalFrames := st.stats.totalFrames,
     moduleLoaded := st.compiledModule.isSome,
     poolSize := 2,
     activeInstance := st.activeIndex,
     standbyInstance := otherIdx st.activeIndex,
     instancesReady := (List.finRange 2).countP (fun i => (st.pool i).isSome),
     switchoverCount := st.stats.switchoverCount,
     lastSwitchoverTimeUs := st.stats.lastSwitchoverTimeUs,
     lastRebuildTimeMs := st.stats.lastRebuildTimeMs,
     coldRestarts := st.stats.coldRestarts })

end HotStandby

namespace ColdRestart

/-- Module-level mutable state of the single-instance runtime:
`compiledModule`, the single `instance` (modelled as `inst`), and the
two counters. -/
structure State where
  compiledModule : Option Nat
  compileCount : Nat
  inst : Option WasmInstance
  crashCount : Nat
  totalFrames : Nat

/-- Result object of the single-instance `processFrame`. -/
structure FrameResult where
  success : Bool

/-- Model of `processFrame(frame)` of the single-instance runtime.  On a
wasm trap the instance is rebuilt from the cached module (awaited inside
the same call) and the trap error is then re-thrown to the caller. -/
def processFrame (st : State) (invoke : InvokeResult) :
    State × Except String FrameResult :=
  if st.inst = none then
    (st, .error "Gateway not initialized")
  else
    let st := { st with totalFrames := st.totalFrames + 1 }
    match invoke with
    | .ok _ => (st, .ok ⟨true⟩)
    | .throwErr m =>
      if isTrapMsg m then
        let st := { st with crashCount := st.crashCount + 1 }
        match st.compiledModule with
        | some mm => ({ st with inst := some ⟨mm⟩ }, .error m)
        | none => (st, .error "instantiate: module is null")
      else
        (st, .error m)

/-- Model of `reload()`: replace the instance with a fresh one from the
cached module. -/
def reload (st : State) (loadTime : Nat) : State × Except String Nat :=
  match st.compiledModule with
  | none => (st, .error "instantiate: module is null")
  | some m => ({ st with inst := some ⟨m⟩ }, .ok loadTime)

/-- Snapshot object returned by `getStats()` of the single-instance
runtime. -/
structure GatewayStats where
  crashCount : Nat
  totalFrames : Nat
  moduleLoaded : Bool
  instanceReady : Bool

/-- Model of `getStats()`: a read-only snapshot of the module state. -/
def getStats (st : State) : State × GatewayStats :=
  (st,
   { crashCount := st.crashCount,
     totalFrames := st.totalFrames,
     moduleLoaded := st.compiledModule.isSome,
     instanceReady := st.inst.isSome })

end ColdRestart

/-- Statistics record with all counters zero, as initialized at module
load of the 2oo3 runtime. -/
def zeroStats : Tmr.Stats := ⟨0, 0, 0, 0, 0, 0, 0, -1⟩

/-- A 2oo3 runtime state right after a successful `createGateway`:
module compiled, three instances installed, all healthy. -/
def readyState3 : Tmr.State :=
  { compiledModule := some 0, compileCount := 1,
    pool := fun _ => some ⟨0⟩, health := fun _ => true,
    stats := zeroStats, pending := [] }

/-- C2: for the R=3 pool, when all three instances return equal,
non-trapping outcome values for a frame, `vote` classifies the vote as
unanimous with agreement "3/3", the accepted result is the common value,
and no instance is marked faulty. -/
theorem C2_unanimous_vote (s : Tmr.Stats) (results : Fin 3 → JSValue)
    (h01 : results 0 = results 1) (h12 : results 1 = results 2)
    (hnotrap : ∀ idx m, results 0 ≠ Tmr.trapOutcome idx m) :
    (Tmr.vote s results).2 = ⟨some (results 0), true, none, "3/3", false⟩ ∧
    (Tmr.vote s results).1.unanimousVotes = s.unanimousVotes + 1 ∧
    (Tmr.vote s results).1.lastFaultyInstance = s.lastFaultyInstance := by
  have e1 : stringify (results 0) = stringify (results 1) := by rw [h01]
  have e2 : stringify (results 1) = stringify (results 2) := by rw [h12]
  unfold Tmr.vote
  rw [if_pos ⟨e1, e2⟩]
  exact ⟨rfl, rfl, rfl⟩

/-- C2 witness: three equal numeric outcomes give a unanimous "3/3" vote
with no faulty instance. -/
theorem C2_unanimous_vote_witness :
    (Tmr.vote zeroStats ![.num 7, .num 7, .num 7]).2 =
      ⟨some (.num 7), true, none, "3/3", false⟩ ∧
    (Tmr.vote zeroStats ![.num 7, .num 7, .num 7]).1.unanimousVotes =
      zeroStats.unanimousVotes + 1 ∧
    (Tmr.vote zeroStats ![.num 7, .num 7, .num 7]).1.lastFaultyInstance =
      zeroStats.lastFaultyInstance :=
  C2_unanimous_vote zeroStats ![.num 7, .num 7, .num 7] rfl rfl
    (fun idx m h => JSValue.noConfusion h)

/-- C1: for the R=3 pool, when exactly one of the three outcomes differs
from the other two — a pair of slots agree on one value while the third
slot's outcome (a different value, or a trap outcome while the other two
agree) serializes differently — `vote` classifies the vote as majority
with agreement "2/3", the accepted result is the agreed value, and the
faulty set is exactly the singleton of the dissenting index.  Following
the voter's own equality (see C7), the dissenter is one whose
`JSON.stringify` serialization differs. -/
theorem C1_majority_vote (s : Tmr.Stats) (results : Fin 3 → JSValue)
    (i j k : Fin 3) (hij : i ≠ j) (hik : i ≠ k) (hjk : j ≠ k)
    (hagree : results i = results j)
    (hdiff : stringify (results k) ≠ stringify (results i)) :
    (Tmr.vote s results).2 =
      ⟨some (results i), false, some (k.val : Int), "2/3", false⟩ ∧
    (Tmr.vote s results).1.majorityVotes = s.majorityVotes + 1 ∧
    (Tmr.vote s results).1.lastFaultyInstance = (k.val : Int) := by
  have hsym := hdiff.symm
  fin_cases i <;> fin_cases j <;> fin_cases k <;>
    simp_all [Tmr.vote]

/-- C1 witness: slots 0 and 1 return the value 7 while slot 2 contributes
a trap outcome; the vote is "2/3" with faulty index 2. -/
def C1results : Fin 3 → JSValue :=
  ![.num 7, .num 7, Tmr.trapOutcome 2 "wasm trap: unreachable"]

/-- C1 witness theorem: the majority claim applied at a concrete frame
where instance 2 trapped and instances 0 and 1 agree. -/
theorem C1_majority_vote_witness :
    stringify (C1results 2) ≠ stringify (C1results 0) ∧
    ((Tmr.vote zeroStats C1results).2 =
        ⟨some (C1results 0), false, some 2, "2/3", false⟩ ∧
      (Tmr.vote zeroStats C1results).1.majorityVotes = zeroStats.majorityVotes + 1 ∧
      (Tmr.vote zeroStats C1results).1.lastFaultyInstance = 2) :=
  ⟨by decide,
   C1_majority_vote zeroStats C1results 0 1 2 (by decide) (by decide) (by decide)
     rfl (by decide)⟩

/-- The two structurally equal objects used for C7: the same two fields
in different insertion order. -/
def C7objA : JSValue := .obj [("x", .num 1), ("y", .num 2)]

/-- Same object as `C7objA` up to field order. -/
def C7objB : JSValue := .obj [("y", .num 2), ("x", .num 1)]

/-- C7 counterexample: the claim says `vote` treats two value outcomes as
agreeing iff they are structurally equal as values, independent of
object key ordering.  `C7objA` and `C7objB` hold the same fields (their
field lists are permutations of each other), yet `vote` classifies the
frame "0/3" — no two outcomes agreed — because it compares the
key-order-sensitive `JSON.stringify` serializations. -/
theorem C7_counterexample :
    List.Perm [("x", JSValue.num 1), ("y", JSValue.num 2)]
              [("y", JSValue.num 2), ("x", JSValue.num 1)] ∧
    (Tmr.vote zeroStats ![C7objA, C7objB, .num 0]).2.agreement = "0/3" ∧
    (Tmr.vote zeroStats ![C7objA, C7objB, .num 0]).2.result = none ∧
    (Tmr.vote zeroStats ![C7objA, C7objB, .num 0]).1.splitVotes =
      zeroStats.splitVotes + 1 :=
  ⟨List.Perm.swap _ _ _, rfl, rfl, rfl⟩

/-- C7 amended: equality between two value outcomes in the voter is
byte-equality of their `JSON.stringify` serializations, which is
sensitive to object key insertion order and to any serialized metadata
fields: the vote is unanimous iff all three serializations coincide, and
irreconcilable iff the three serializations are pairwise distinct. -/
theorem C7_amended (s : Tmr.Stats) (a b c : JSValue) :
    ((Tmr.vote s ![a, b, c]).2.agreement = "3/3" ↔
       (stringify a = stringify b ∧ stringify b = stringify c)) ∧
    ((Tmr.vote s ![a, b, c]).2.agreement = "0/3" ↔
       (stringify a ≠ stringify b ∧ stringify a ≠ stringify c ∧
        stringify b ≠ stringify c)) := by
  have d1 : ("2/3" : String) ≠ "3/3" := by decide
  have d2 : ("0/3" : String) ≠ "3/3" := by decide
  have d3 : ("2/3" : String) ≠ "0/3" := by decide
  have d4 : ("3/3" : String) ≠ "0/3" := by decide
  unfold Tmr.vote
  simp only [Matrix.cons_val_zero, Matrix.cons_val_one, Matrix.cons_val_two,
    Matrix.head_cons, Matrix.tail_cons]
  split_ifs with h1 h2 h3 h4 <;> simp_all

/-- Outcome that slot `idx` contributes to the vote when its invocation
returns a value or throws a wasm trap (the only cases the dispatch
callback converts into outcomes). -/
def Tmr.slotOutcome (idx : Fin 3) : InvokeResult → JSValue
  | .ok v => v
  | .throwErr m => Tmr.trapOutcome idx m

/-- Number of trap bumps one invocation contributes to `crashCount`. -/
def Tmr.trapBump : InvokeResult → Nat
  | .ok _ => 0
  | .throwErr _ => 1

/-- Helper: when an invocation is a value or a wasm trap, the dispatch
callback bumps `crashCount` by the trap count and yields the slot
outcome. -/
theorem Tmr.runSlot_eq (s : Tmr.Stats) (i : Fin 3) (r : InvokeResult)
    (h : ∀ m, r = .throwErr m → isTrapMsg m = true) :
    Tmr.runSlot s i r =
      ({ s with crashCount := s.crashCount + Tmr.trapBump r },
       .ok (Tmr.slotOutcome i r)) := by
  cases r with
  | ok v => rfl
  | throwErr m => simp [Tmr.runSlot, Tmr.slotOutcome, Tmr.trapBump, h m rfl]

/-- Helper: the split branch of `vote`, taken when the three
serializations are pairwise distinct. -/
theorem Tmr.vote_split (s : Tmr.Stats) (a b c : JSValue)
    (h01 : stringify a ≠ stringify b) (h02 : stringify a ≠ stringify c)
    (h12 : stringify b ≠ stringify c) :
    Tmr.vote s ![a, b, c] =
      ({ s with voteCount := s.voteCount + 1, splitVotes := s.splitVotes + 1 },
       ⟨none, false, some (-1), "0/3", true⟩) := by
  unfold Tmr.vote
  simp only [Matrix.cons_val_zero, Matrix.cons_val_one, Matrix.cons_val_two,
    Matrix.head_cons, Matrix.tail_cons]
  rw [if_neg (fun hc => h01 hc.1), if_neg h01, if_neg h02, if_neg h12]

/-- Helper: when every thrown invocation error is a wasm trap, `dispatch`
bumps `crashCount` once per trap and yields the three slot outcomes. -/
theorem Tmr.dispatch_eq (s : Tmr.Stats) (invoke : Fin 3 → InvokeResult)
    (htrap : ∀ (i : Fin 3) m, invoke i = .throwErr m → isTrapMsg m = true) :
    Tmr.dispatch s invoke =
      ({ s with crashCount := s.crashCount + Tmr.trapBump (invoke 0) +
            Tmr.trapBump (invoke 1) + Tmr.trapBump (invoke 2) },
       (.ok (Tmr.slotOutcome 0 (invoke 0)), .ok (Tmr.slotOutcome 1 (invoke 1)),
        .ok (Tmr.slotOutcome 2 (invoke 2)))) := by
  unfold Tmr.dispatch
  rw [Tmr.runSlot_eq s 0 _ (fun m h => htrap 0 m h)]
  dsimp only []
  rw [Tmr.runSlot_eq _ 1 _ (fun m h => htrap 1 m h)]
  dsimp only []
  rw [Tmr.runSlot_eq _ 2 _ (fun m h => htrap 2 m h)]

/-- Helper: `settleVote` installs exactly the statistics computed by the
vote. -/
theorem Tmr.settleVote_stats (st : Tmr.State) (voted : Tmr.Stats × Tmr.VoteRes) :
    (Tmr.settleVote st voted).1.stats = voted.1 := by
  unfold Tmr.settleVote
  split_ifs <;> rfl

/-- Helper: `settleVote` neither consults nor reveals anything of the
state in its returned result object. -/
theorem Tmr.settleVote_snd (st st2 : Tmr.State) (voted : Tmr.Stats × Tmr.VoteRes) :
    (Tmr.settleVote st voted).2 = (Tmr.settleVote st2 voted).2 := by
  unfold Tmr.settleVote
  split_ifs <;> rfl

/-- Helper: whatever the invocation behaviours, `dispatch` only ever adds
trap bumps to `crashCount`. -/
theorem Tmr.dispatch_stats (s : Tmr.Stats) (invoke : Fin 3 → InvokeResult) :
    ∃ k : Nat, (Tmr.dispatch s invoke).1 = { s with crashCount := s.crashCount + k } := by
  unfold Tmr.dispatch
  cases hv0 : invoke 0 <;> cases hv1 : invoke 1 <;> cases hv2 : invoke 2 <;>
    dsimp only [Tmr.runSlot] <;> (try split_ifs) <;> (try dsimp only []) <;>
    (try split_ifs) <;> (try dsimp only []) <;> (try split_ifs) <;>
    (try dsimp only []) <;>
    first
      | exact ⟨0, rfl⟩
      | exact ⟨1, rfl⟩
      | exact ⟨2, rfl⟩
      | exact ⟨3, rfl⟩

/-- C3: for the R=3 pool, when no two of the three outcomes serialize
equally (including the case where trapped instances outnumber any single
agreeing group), the vote is irreconcilable with agreement "0/3", there
is no accepted result, and `processFrame` reports the frame as rejected
(`success: false`) rather than throwing. -/
theorem C3_split_rejected (st : Tmr.State) (invoke : Fin 3 → InvokeResult)
    (hready : ∀ i : Fin 3, st.pool i ≠ none)
    (htrap : ∀ (i : Fin 3) m, invoke i = .throwErr m → isTrapMsg m = true)
    (h01 : stringify (Tmr.slotOutcome 0 (invoke 0)) ≠
           stringify (Tmr.slotOutcome 1 (invoke 1)))
    (h02 : stringify (Tmr.slotOutcome 0 (invoke 0)) ≠
           stringify (Tmr.slotOutcome 2 (invoke 2)))
    (h12 : stringify (Tmr.slotOutcome 1 (invoke 1)) ≠
           stringify (Tmr.slotOutcome 2 (invoke 2))) :
    (Tmr.processFrame st invoke).2 = .ok ⟨false, some "0/3", none, none, true⟩ ∧
    (Tmr.processFrame st invoke).1.stats.splitVotes = st.stats.splitVotes + 1 := by
  have g : ¬ (st.pool 0 = none ∨ st.pool 1 = none ∨ st.pool 2 = none) := by
    push_neg
    exact ⟨hready 0, hready 1, hready 2⟩
  unfold Tmr.processFrame
  rw [if_neg g, Tmr.dispatch_eq _ _ htrap]
  dsimp only []
  rw [Tmr.vote_split _ _ _ _ h01 h02 h12]
  simp [Tmr.settleVote]

/-- Invocation behaviour for the C3 witness: instances 0 and 1 trap with
different messages while instance 2 returns a value, so trapped
instances outnumber any agreeing group. -/
def C3invoke : Fin 3 → InvokeResult :=
  ![.throwErr "wasm trap: one", .throwErr "wasm trap: two", .ok (.num 5)]

/-- C3 witness: at a ready pool where two instances trap differently and
one returns a value, the frame is rejected with agreement "0/3" and no
result, without an exception. -/
theorem C3_split_rejected_witness :
    stringify (Tmr.slotOutcome 0 (C3invoke 0)) ≠
      stringify (Tmr.slotOutcome 1 (C3invoke 1)) ∧
    ((Tmr.processFrame readyState3 C3invoke).2 =
        .ok ⟨false, some "0/3", none, none, true⟩ ∧
      (Tmr.processFrame readyState3 C3invoke).1.stats.splitVotes =
        readyState3.stats.splitVotes + 1) :=
  ⟨by decide,
   C3_split_rejected readyState3 C3invoke
     (fun i h => Option.noConfusion h)
     (fun i m h => by
       fin_cases i
       · injection h with h2
         rw [← h2]; decide
       · injection h with h2
         rw [← h2]; decide
       · exact InvokeResult.noConfusion h)
     (by decide) (by decide) (by decide)⟩

/-- Helper: the statistics effect of one `vote` call: frame and crash
counters untouched, `voteCount` incremented once, and exactly one of the
three vote buckets incremented once. -/
theorem Tmr.vote_stats_shape (s : Tmr.Stats) (results : Fin 3 → JSValue) :
    (Tmr.vote s results).1.crashCount = s.crashCount ∧
    (Tmr.vote s results).1.totalFrames = s.totalFrames ∧
    (Tmr.vote s results).1.voteCount = s.voteCount + 1 ∧
    (((Tmr.vote s results).1.unanimousVotes = s.unanimousVotes + 1 ∧
      (Tmr.vote s results).1.majorityVotes = s.majorityVotes ∧
      (Tmr.vote s results).1.splitVotes = s.splitVotes) ∨
     ((Tmr.vote s results).1.unanimousVotes = s.unanimousVotes ∧
      (Tmr.vote s results).1.majorityVotes = s.majorityVotes + 1 ∧
      (Tmr.vote s results).1.splitVotes = s.splitVotes) ∨
     ((Tmr.vote s results).1.unanimousVotes = s.unanimousVotes ∧
      (Tmr.vote s results).1.majorityVotes = s.majorityVotes ∧
      (Tmr.vote s results).1.splitVotes = s.splitVotes + 1)) := by
  unfold Tmr.vote
  simp only []
  split_ifs <;> simp

/-- Helper: the statistics effect of one 2oo3 `processFrame` call: either
the not-initialized guard throws with the stats untouched, or the frame
counter is bumped once and `crashCount` absorbs one bump per trap, and —
unless a non-trap error is re-thrown — the voter runs on the collected
outcomes. -/
theorem Tmr.processFrame_stats_shape (st : Tmr.State) (invoke : Fin 3 → InvokeResult) :
    (Tmr.processFrame st invoke).1.stats = st.stats ∨
    (∃ k : Nat,
      (Tmr.processFrame st invoke).1.stats =
        { st.stats with crashCount := st.stats.crashCount + k,
                        totalFrames := st.stats.totalFrames + 1 } ∨
      ∃ results : Fin 3 → JSValue,
        (Tmr.processFrame st invoke).1.stats =
          (Tmr.vote { st.stats with crashCount := st.stats.crashCount + k,
                                    totalFrames := st.stats.totalFrames + 1 } results).1) := by
  unfold Tmr.processFrame
  by_cases g : st.pool 0 = none ∨ st.pool 1 = none ∨ st.pool 2 = none
  · rw [if_pos g]
    exact Or.inl rfl
  · rw [if_neg g]
    obtain ⟨k, hk⟩ :=
      Tmr.dispatch_stats { st.stats with totalFrames := st.stats.totalFrames + 1 } invoke
    rcases hd : Tmr.dispatch { st.stats with totalFrames := st.stats.totalFrames + 1 } invoke
      with ⟨s2, e0, e1, e2⟩
    rw [hd] at hk
    dsimp only [] at hk
    refine Or.inr ⟨k, ?_⟩
    cases e0 <;> cases e1 <;> cases e2 <;> dsimp only [] <;>
      first
        | exact Or.inl (hk.trans rfl)
        | (rename_i v0 v1 v2
           exact Or.inr ⟨![v0, v1, v2], by rw [Tmr.settleVote_stats, hk]⟩)

/-- C10: every `vote` call increments `voteCount` by exactly one and
exactly one of `unanimousVotes`, `majorityVotes`, `splitVotes` by
exactly one, so the invariant voteCount = unanimousVotes +
majorityVotes + splitVotes is preserved by `vote` and by `processFrame`;
the agreement string is always "3/3", "2/3" or "0/3"; the faulty field
carries an index in 0..2 exactly when the agreement is "2/3"; and the
result is absent exactly when the agreement is "0/3". -/
theorem C10_vote_accounting (s : Tmr.Stats) (results : Fin 3 → JSValue)
    (st : Tmr.State) (invoke : Fin 3 → InvokeResult) :
    (Tmr.vote s results).1.voteCount = s.voteCount + 1 ∧
    (((Tmr.vote s results).1.unanimousVotes = s.unanimousVotes + 1 ∧
      (Tmr.vote s results).1.majorityVotes = s.majorityVotes ∧
      (Tmr.vote s results).1.splitVotes = s.splitVotes) ∨
     ((Tmr.vote s results).1.unanimousVotes = s.unanimousVotes ∧
      (Tmr.vote s results).1.majorityVotes = s.majorityVotes + 1 ∧
      (Tmr.vote s results).1.splitVotes = s.splitVotes) ∨
     ((Tmr.vote s results).1.unanimousVotes = s.unanimousVotes ∧
      (Tmr.vote s results).1.majorityVotes = s.majorityVotes ∧
      (Tmr.vote s results).1.splitVotes = s.splitVotes + 1)) ∧
    (s.voteCount = s.unanimousVotes + s.majorityVotes + s.splitVotes →
      (Tmr.vote s results).1.voteCount =
        (Tmr.vote s results).1.unanimousVotes + (Tmr.vote s results).1.majorityVotes +
          (Tmr.vote s results).1.splitVotes) ∧
    ((Tmr.vote s results).2.agreement = "3/3" ∨
     (Tmr.vote s results).2.agreement = "2/3" ∨
     (Tmr.vote s results).2.agreement = "0/3") ∧
    ((∃ k : Int, (Tmr.vote s results).2.faulty = some k ∧ 0 ≤ k ∧ k ≤ 2) ↔
      (Tmr.vote s results).2.agreement = "2/3") ∧
    ((Tmr.vote s results).2.result = none ↔
      (Tmr.vote s results).2.agreement = "0/3") ∧
    (st.stats.voteCount =
        st.stats.unanimousVotes + st.stats.majorityVotes + st.stats.splitVotes →
      (Tmr.processFrame st invoke).1.stats.voteCount =
        (Tmr.processFrame st invoke).1.stats.unanimousVotes +
          (Tmr.processFrame st invoke).1.stats.majorityVotes +
          (Tmr.processFrame st invoke).1.stats.splitVotes) := by
  have d1 : ("2/3" : String) ≠ "3/3" := by decide
  have d2 : ("0/3" : String) ≠ "3/3" := by decide
  have d3 : ("2/3" : String) ≠ "0/3" := by decide
  have d4 : ("3/3" : String) ≠ "2/3" := by decide
  refine ⟨(Tmr.vote_stats_shape s results).2.2.1,
          (Tmr.vote_stats_shape s results).2.2.2, ?_, ?_, ?_, ?_, ?_⟩
  · intro h
    obtain ⟨-, -, hvc, hdisj⟩ := Tmr.vote_stats_shape s results
    rcases hdisj with ⟨a, b, c⟩ | ⟨a, b, c⟩ | ⟨a, b, c⟩ <;> omega
  · unfold Tmr.vote
    simp only []
    split_ifs <;> simp
  · unfold Tmr.vote
    simp only []
    split_ifs <;> simp_all
  · unfold Tmr.vote
    simp only []
    split_ifs <;> simp_all
  · intro h
    rcases Tmr.processFrame_stats_shape st invoke with hs | ⟨k, hs | ⟨res, hs⟩⟩ <;>
      rw [hs]
    · exact h
    · simpa using h
    · obtain ⟨-, -, hvc, hdisj⟩ :=
        Tmr.vote_stats_shape
          { st.stats with crashCount := st.stats.crashCount + k,
                          totalFrames := st.stats.totalFrames + 1 } res
      rcases hdisj with ⟨a, b, c⟩ | ⟨a, b, c⟩ | ⟨a, b, c⟩ <;> simp_all <;> omega

/-- C10 witness: the accounting facts of C10 applied at an all-agree
frame on a freshly initialized pool, with both invariant premises
discharged by evaluation. -/
def C10res : Fin 3 → JSValue := ![.num 1, .num 1, .num 1]

/-- Invocation behaviour used by the C10 witness. -/
def C10invoke : Fin 3 → InvokeResult := fun _ => .ok (.num 1)

/-- C10 witness theorem. -/
theorem C10_vote_accounting_witness :
    (Tmr.vote zeroStats C10res).1.voteCount = zeroStats.voteCount + 1 ∧
    (Tmr.vote zeroStats C10res).1.voteCount =
      (Tmr.vote zeroStats C10res).1.unanimousVotes +
        (Tmr.vote zeroStats C10res).1.majorityVotes +
        (Tmr.vote zeroStats C10res).1.splitVotes ∧
    (Tmr.processFrame readyState3 C10invoke).1.stats.voteCount =
      (Tmr.processFrame readyState3 C10invoke).1.stats.unanimousVotes +
        (Tmr.processFrame readyState3 C10invoke).1.stats.majorityVotes +
        (Tmr.processFrame readyState3 C10invoke).1.stats.splitVotes :=
  ⟨(C10_vote_accounting zeroStats C10res readyState3 C10invoke).1,
   (C10_vote_accounting zeroStats C10res readyState3 C10invoke).2.2.1 (by decide),
   (C10_vote_accounting zeroStats C10res readyState3 C10invoke).2.2.2.2.2.2 (by decide)⟩

/-- A 2oo3 pool state with instance 2 marked unhealthy (as at the start
of an asynchronous rebuild of slot 2) while its stale instance is still
installed. -/
def C5state : Tmr.State :=
  { compiledModule := some 0, compileCount := 1,
    pool := fun _ => some ⟨0⟩, health := ![true, true, false],
    stats := zeroStats, pending := [] }

/-- Invocation behaviour A for C5: three pairwise different values. -/
def C5invokeA : Fin 3 → InvokeResult :=
  ![.ok (.num 1), .ok (.num 2), .ok (.num 3)]

/-- Invocation behaviour B for C5: identical to A on slots 0 and 1, but
different on the unhealthy slot 2. -/
def C5invokeB : Fin 3 → InvokeResult :=
  ![.ok (.num 1), .ok (.num 2), .ok (.num 1)]

/-- C5 counterexample: with slot 2 marked unhealthy, `processFrame`
still invokes it: two invocation behaviours that differ only in slot 2
produce different frame results (a "0/3" rejection versus a "2/3"
majority), which is impossible if only healthy slots were dispatched. -/
theorem C5_counterexample :
    C5state.health 2 = false ∧
    C5invokeA 0 = C5invokeB 0 ∧ C5invokeA 1 = C5invokeB 1 ∧
    (Tmr.processFrame C5state C5invokeA).2 =
      .ok ⟨false, some "0/3", none, none, true⟩ ∧
    (Tmr.processFrame C5state C5invokeB).2 =
      .ok ⟨true, some "2/3", some 1, some (.num 1), false⟩ ∧
    (Tmr.processFrame C5state C5invokeA).2 ≠ (Tmr.processFrame C5state C5invokeB).2 := by
  refine ⟨rfl, rfl, rfl, rfl, rfl, ?_⟩
  intro hcontra
  rw [show (Tmr.processFrame C5state C5invokeA).2 =
        .ok ⟨false, some "0/3", none, none, true⟩ from rfl,
      show (Tmr.processFrame C5state C5invokeB).2 =
        .ok ⟨true, some "2/3", some 1, some (.num 1), false⟩ from rfl] at hcontra
  simp at hcontra

/-- C5 amended: the health flags are diagnostics only: `processFrame`
dispatches every frame to all three pool slots without consulting the
health flags, so its returned result object and statistics are entirely
independent of the health flags, and a slot marked faulty is still
invoked (through its retained stale instance) until its rebuild
completes. -/
theorem C5_amended (st : Tmr.State) (h : Fin 3 → Bool) (invoke : Fin 3 → InvokeResult) :
    (Tmr.processFrame { st with health := h } invoke).2 =
      (Tmr.processFrame st invoke).2 ∧
    (Tmr.processFrame { st with health := h } invoke).1.stats =
      (Tmr.processFrame st invoke).1.stats := by
  unfold Tmr.processFrame
  dsimp only []
  by_cases g : st.pool 0 = none ∨ st.pool 1 = none ∨ st.pool 2 = none
  · rw [if_pos g, if_pos g]
    exact ⟨rfl, rfl⟩
  · rw [if_neg g, if_neg g]
    rcases hd : Tmr.dispatch { st.stats with totalFrames := st.stats.totalFrames + 1 }
        invoke with ⟨s2, e0, e1, e2⟩
    cases e0 <;> cases e1 <;> cases e2 <;> dsimp only [] <;>
      first
        | exact ⟨rfl, rfl⟩
        | exact ⟨Tmr.settleVote_snd _ _ _,
                 by rw [Tmr.settleVote_stats, Tmr.settleVote_stats]⟩

/-- C6: for the R=2 hot-standby pool, when the active instance (index 0)
traps during `processFrame`, the active index flips to 1 within the same
call, the call returns a failure-with-failover result object (not a
thrown exception), and the failed index 0 is scheduled for an
asynchronous rebuild the returned result does not wait on: the pending
rebuild queue gains index 0 while the pool slots and the cold-restart
counter are untouched by this call. -/
theorem C6_failover (st : HotStandby.State) (invoke : Fin 2 → InvokeResult)
    (t : Nat) (m : String)
    (hready : st.pool st.activeIndex ≠ none)
    (hactive : st.activeIndex = 0)
    (hinv : invoke 0 = .throwErr m)
    (htrap : isTrapMsg m = true) :
    (HotStandby.processFrame st invoke t).1.activeIndex = 1 ∧
    (HotStandby.processFrame st invoke t).2 = .ok ⟨false, none, true, some 1⟩ ∧
    (HotStandby.processFrame st invoke t).1.pending = st.pending ++ [0] ∧
    (HotStandby.processFrame st invoke t).1.stats.coldRestarts =
      st.stats.coldRestarts ∧
    (HotStandby.processFrame st invoke t).1.pool = st.pool := by
  unfold HotStandby.processFrame
  rw [if_neg hready, hactive, hinv]
  dsimp only []
  rw [if_pos htrap]
  exact ⟨rfl, rfl, rfl, rfl, rfl⟩

/-- A hot-standby pool state right after `createGateway`, with index 0
active. -/
def C6state : HotStandby.State :=
  { compiledModule := some 0, compileCount := 1, pool := fun _ => some ⟨0⟩,
    activeIndex := 0, stats := ⟨0, 0, 0, 0, 0, 0⟩, pending := [] }

/-- C6 witness: the failover claim applied at a fresh hot-standby pool
whose active instance 0 throws a wasm trap. -/
theorem C6_failover_witness :
    C6state.pool C6state.activeIndex ≠ none ∧
    C6state.activeIndex = 0 ∧
    isTrapMsg "wasm trap: unreachable executed" = true ∧
    ((HotStandby.processFrame C6state
        (fun _ => .throwErr "wasm trap: unreachable executed") 100).1.activeIndex = 1 ∧
      (HotStandby.processFrame C6state
        (fun _ => .throwErr "wasm trap: unreachable executed") 100).2 =
        .ok ⟨false, none, true, some 1⟩ ∧
      (HotStandby.processFrame C6state
        (fun _ => .throwErr "wasm trap: unreachable executed") 100).1.pending =
        C6state.pending ++ [0] ∧
      (HotStandby.processFrame C6state
        (fun _ => .throwErr "wasm trap: unreachable executed") 100).1.stats.coldRestarts =
        C6state.stats.coldRestarts ∧
      (HotStandby.processFrame C6state
        (fun _ => .throwErr "wasm trap: unreachable executed") 100).1.pool =
        C6state.pool) :=
  ⟨fun h => Option.noConfusion h, rfl, by decide,
   C6_failover C6state (fun _ => .throwErr "wasm trap: unreachable executed") 100
     "wasm trap: unreachable executed"
     (fun h => Option.noConfusion h) rfl rfl (by decide)⟩

/-- Helper: with all slots installed and only wasm traps thrown, the
2oo3 `processFrame` is the voter applied to the three slot outcomes,
settled into the result object. -/
theorem Tmr.processFrame_eq (st : Tmr.State) (invoke : Fin 3 → InvokeResult)
    (g : ¬ (st.pool 0 = none ∨ st.pool 1 = none ∨ st.pool 2 = none))
    (htrap : ∀ (i : Fin 3) m, invoke i = .throwErr m → isTrapMsg m = true) :
    Tmr.processFrame st invoke =
      Tmr.settleVote st (Tmr.vote
        { st.stats with
            crashCount := st.stats.crashCount + Tmr.trapBump (invoke 0) +
              Tmr.trapBump (invoke 1) + Tmr.trapBump (invoke 2),
            totalFrames := st.stats.totalFrames + 1 }
        ![Tmr.slotOutcome 0 (invoke 0), Tmr.slotOutcome 1 (invoke 1),
          Tmr.slotOutcome 2 (invoke 2)]) := by
  unfold Tmr.processFrame
  rw [if_neg g, Tmr.dispatch_eq _ _ htrap]

/-- Helper: `settleVote` always returns a result object, never an
exception. -/
theorem Tmr.settleVote_ok (st : Tmr.State) (voted : Tmr.Stats × Tmr.VoteRes) :
    ∃ r, (Tmr.settleVote st voted).2 = .ok r := by
  unfold Tmr.settleVote
  split_ifs <;> exact ⟨_, rfl⟩

/-- An initialized single-instance (cold-restart) gateway state. -/
def C4state1 : ColdRestart.State :=
  { compiledModule := some 0, compileCount := 1, inst := some ⟨0⟩,
    crashCount := 0, totalFrames := 0 }

/-- C4 counterexample: the claim says that in every pool variant a wasm
trap never propagates as an exception and the frame is reported failed
with no accepted result.  Both parts fail: the R=1 runtime re-throws the
trap to its caller after rebuilding ("re-throw so caller knows it
failed"), and the R=3 runtime reports a trapped frame as a success with
an accepted result whenever the other two instances agree. -/
theorem C4_counterexample :
    isTrapMsg "wasm trap: unreachable" = true ∧
    (ColdRestart.processFrame C4state1 (.throwErr "wasm trap: unreachable")).2 =
      .error "wasm trap: unreachable" ∧
    (Tmr.processFrame readyState3
        ![.ok (.num 7), .ok (.num 7), .throwErr "wasm trap: boom"]).2 =
      .ok ⟨true, some "2/3", some 2, some (.num 7), false⟩ :=
  ⟨by decide, rfl, rfl⟩

/-- C4 amended: wasm traps raised while invoking an instance are always
caught by the dispatch callbacks and counted, and in the R=2 and R=3
pools they are never propagated to the caller: the R=2 pool converts the
trap into a failure-with-failover result object and the R=3 pool into a
trap Outcome that is voted on (the R=1 pool instead re-throws the trap
after an in-call rebuild, and a trapped R=3 frame can still be accepted
when the two other instances agree). -/
theorem C4_amended (st2 : HotStandby.State) (invoke2 : Fin 2 → InvokeResult) (t : Nat)
    (st3 : Tmr.State) (invoke3 : Fin 3 → InvokeResult)
    (h2 : st2.pool st2.activeIndex ≠ none)
    (h3 : ∀ i : Fin 3, st3.pool i ≠ none)
    (htrap2 : ∀ m, invoke2 st2.activeIndex = .throwErr m → isTrapMsg m = true)
    (htrap3 : ∀ (i : Fin 3) m, invoke3 i = .throwErr m → isTrapMsg m = true) :
    (∃ r, (HotStandby.processFrame st2 invoke2 t).2 = .ok r) ∧
    (∀ m, invoke2 st2.activeIndex = .throwErr m →
      (HotStandby.processFrame st2 invoke2 t).2 =
        .ok ⟨false, none, true, some (HotStandby.otherIdx st2.activeIndex)⟩) ∧
    (∃ r, (Tmr.processFrame st3 invoke3).2 = .ok r) ∧
    (Tmr.processFrame st3 invoke3).1.stats.crashCount =
      st3.stats.crashCount + Tmr.trapBump (invoke3 0) + Tmr.trapBump (invoke3 1) +
        Tmr.trapBump (invoke3 2) := by
  have g3 : ¬ (st3.pool 0 = none ∨ st3.pool 1 = none ∨ st3.pool 2 = none) := by
    push_neg
    exact ⟨h3 0, h3 1, h3 2⟩
  refine ⟨?_, ?_, ?_, ?_⟩
  · unfold HotStandby.processFrame
    rw [if_neg h2]
    cases hi : invoke2 st2.activeIndex with
    | ok v => exact ⟨_, rfl⟩
    | throwErr m =>
      dsimp only []
      rw [if_pos (htrap2 m hi)]
      exact ⟨_, rfl⟩
  · intro m hm
    unfold HotStandby.processFrame
    rw [if_neg h2, hm]
    dsimp only []
    rw [if_pos (htrap2 m hm)]
  · rw [Tmr.processFrame_eq st3 invoke3 g3 htrap3]
    exact Tmr.settleVote_ok _ _
  · rw [Tmr.processFrame_eq st3 invoke3 g3 htrap3, Tmr.settleVote_stats,
        (Tmr.vote_stats_shape _ _).1]

/-- Invocation behaviour for the C4 witness: slot 1 traps while slots 0
and 2 agree. -/
def C4invoke3 : Fin 3 → InvokeResult :=
  ![.ok (.num 7), .throwErr "wasm trap: boom", .ok (.num 7)]

/-- C4 amended witness: the amended claim applied at a fresh hot-standby
pool whose active instance traps and at a ready 2oo3 pool where slot 1
traps. -/
theorem C4_amended_witness :
    (∃ r, (HotStandby.processFrame C6state
        (fun _ => .throwErr "wasm trap: boom") 5).2 = .ok r) ∧
    (HotStandby.processFrame C6state (fun _ => .throwErr "wasm trap: boom") 5).2 =
      .ok ⟨false, none, true, some (HotStandby.otherIdx C6state.activeIndex)⟩ ∧
    (∃ r, (Tmr.processFrame readyState3 C4invoke3).2 = .ok r) ∧
    (Tmr.processFrame readyState3 C4invoke3).1.stats.crashCount =
      readyState3.stats.crashCount + Tmr.trapBump (C4invoke3 0) +
        Tmr.trapBump (C4invoke3 1) + Tmr.trapBump (C4invoke3 2) := by
  have h := C4_amended C6state (fun _ => .throwErr "wasm trap: boom") 5
    readyState3 C4invoke3
    (fun hx => Option.noConfusion hx)
    (fun i hx => Option.noConfusion hx)
    (fun m hm => by injection hm with e; rw [← e]; decide)
    (fun i m hm => by
      fin_cases i
      · exact InvokeResult.noConfusion hm
      · injection hm with e
        rw [← e]; decide
      · exact InvokeResult.noConfusion hm)
  exact ⟨h.1, h.2.1 "wasm trap: boom" rfl, h.2.2.1, h.2.2.2⟩

/-- Helper: `settleVote` never touches the cached module, the compile
counter or the pool slots. -/
theorem Tmr.settleVote_frame (st : Tmr.State) (voted : Tmr.Stats × Tmr.VoteRes) :
    (Tmr.settleVote st voted).1.compiledModule = st.compiledModule ∧
    (Tmr.settleVote st voted).1.compileCount = st.compileCount ∧
    (Tmr.settleVote st voted).1.pool = st.pool := by
  unfold Tmr.settleVote
  split_ifs <;> exact ⟨rfl, rfl, rfl⟩

/-- C8: the expensive compile step runs exactly once at pool
initialization: `createGateway` from the fresh module state compiles
exactly once, and no call to `processFrame`, `reload` or a rebuild
completion re-compiles the module or changes the cached compiled-module
reference — `reload` and rebuilds only create new instances from the
existing cached module. -/
theorem C8_compile_once (st : Tmr.State) (invoke : Fin 3 → InvokeResult)
    (idx : Fin 3) (k : Int) (t u : Nat) (m : Nat) :
    ((Tmr.processFrame st invoke).1.compiledModule = st.compiledModule ∧
     (Tmr.processFrame st invoke).1.compileCount = st.compileCount) ∧
    ((Tmr.reload st idx t).1.compiledModule = st.compiledModule ∧
     (Tmr.reload st idx t).1.compileCount = st.compileCount) ∧
    ((Tmr.rebuildComplete st k u).compiledModule = st.compiledModule ∧
     (Tmr.rebuildComplete st k u).compileCount = st.compileCount) ∧
    (Tmr.createGateway Tmr.initState).1.compileCount = 1 ∧
    (st.compiledModule = some m →
      (Tmr.reload st idx t).1.pool idx = some ⟨m⟩ ∧
      (Tmr.rebuildComplete st (idx.val : Int) u).pool idx = some ⟨m⟩) := by
  refine ⟨?_, ?_, ?_, rfl, ?_⟩
  · unfold Tmr.processFrame
    by_cases g : st.pool 0 = none ∨ st.pool 1 = none ∨ st.pool 2 = none
    · rw [if_pos g]
      exact ⟨rfl, rfl⟩
    · rw [if_neg g]
      rcases hd : Tmr.dispatch { st.stats with totalFrames := st.stats.totalFrames + 1 }
          invoke with ⟨s2, e0, e1, e2⟩
      cases e0 <;> cases e1 <;> cases e2 <;> dsimp only [] <;>
        first
          | exact ⟨rfl, rfl⟩
          | exact ⟨(Tmr.settleVote_frame _ _).1, (Tmr.settleVote_frame _ _).2.1⟩
  · unfold Tmr.reload
    rcases hmod : st.compiledModule with _ | mm <;>
      first
        | exact ⟨hmod, rfl⟩
        | exact ⟨rfl, rfl⟩
  · unfold Tmr.rebuildComplete
    rcases hmod : st.compiledModule with _ | mm <;>
      first
        | exact ⟨hmod, rfl⟩
        | exact ⟨rfl, rfl⟩
  · intro hm
    constructor
    · simp [Tmr.reload, hm]
    · simp [Tmr.rebuildComplete, hm]

/-- C8 witness: on a ready pool with cached module 0, `reload` and a
rebuild completion at slot 1 install instances created from module 0,
and `createGateway` on the fresh state has compiled exactly once. -/
theorem C8_compile_once_witness :
    readyState3.compiledModule = some 0 ∧
    ((Tmr.reload readyState3 1 4).1.pool 1 = some ⟨0⟩ ∧
     (Tmr.rebuildComplete readyState3 (((1 : Fin 3) : Fin 3).val : Int) 4).pool 1 =
       some ⟨0⟩) ∧
    (Tmr.createGateway Tmr.initState).1.compileCount = 1 :=
  ⟨rfl,
   (C8_compile_once readyState3 (fun _ => .ok .null) 1 0 4 4 0).2.2.2.2 rfl,
   (C8_compile_once readyState3 (fun _ => .ok .null) 1 0 4 4 0).2.2.2.1⟩

/-- Pointwise order on the monotone counters of the 2oo3 statistics. -/
def Tmr.statsLe (a b : Tmr.Stats) : Prop :=
  a.crashCount ≤ b.crashCount ∧ a.voteCount ≤ b.voteCount ∧
  a.unanimousVotes ≤ b.unanimousVotes ∧ a.majorityVotes ≤ b.majorityVotes ∧
  a.splitVotes ≤ b.splitVotes ∧ a.totalFrames ≤ b.totalFrames

/-- Helper: `statsLe` is transitive. -/
theorem Tmr.statsLe_trans (a b c : Tmr.Stats) (h1 : Tmr.statsLe a b)
    (h2 : Tmr.statsLe b c) : Tmr.statsLe a c := by
  unfold Tmr.statsLe at h1 h2 ⊢
  omega

/-- Helper: one `vote` call never decreases any counter. -/
theorem Tmr.statsLe_vote (s : Tmr.Stats) (results : Fin 3 → JSValue) :
    Tmr.statsLe s (Tmr.vote s results).1 := by
  obtain ⟨e1, e2, e3, hdisj⟩ := Tmr.vote_stats_shape s results
  unfold Tmr.statsLe
  rcases hdisj with ⟨a, b, c⟩ | ⟨a, b, c⟩ | ⟨a, b, c⟩ <;> omega

/-- Pointwise order on the monotone counters of the hot-standby
statistics. -/
def HotStandby.statsLe (a b : HotStandby.Stats) : Prop :=
  a.crashCount ≤ b.crashCount ∧ a.totalFrames ≤ b.totalFrames ∧
  a.switchoverCount ≤ b.switchoverCount ∧ a.coldRestarts ≤ b.coldRestarts

/-- C9: all listed metric counters (`crashCount`, `totalFrames`,
`voteCount`, `unanimousVotes`, `majorityVotes`, `splitVotes`,
`switchoverCount`, `coldRestarts`) are monotonically non-decreasing
under every operation of every pool variant: frame processing, voting,
reload, rebuild completion and statistics reads. -/
theorem C9_counters_monotone
    (s3 : Tmr.Stats) (res : Fin 3 → JSValue)
    (st3 : Tmr.State) (invoke3 : Fin 3 → InvokeResult) (idx3 : Fin 3) (k : Int)
    (t u : Nat)
    (st2 : HotStandby.State) (invoke2 : Fin 2 → InvokeResult) (w : Nat) (idx2 : Fin 2)
    (st1 : ColdRestart.State) (invoke1 : InvokeResult) (v : Nat) :
    Tmr.statsLe s3 (Tmr.vote s3 res).1 ∧
    Tmr.statsLe st3.stats (Tmr.processFrame st3 invoke3).1.stats ∧
    Tmr.statsLe st3.stats (Tmr.reload st3 idx3 t).1.stats ∧
    Tmr.statsLe st3.stats (Tmr.rebuildComplete st3 k u).stats ∧
    Tmr.statsLe st3.stats (Tmr.getStats st3).1.stats ∧
    HotStandby.statsLe st2.stats (HotStandby.processFrame st2 invoke2 w).1.stats ∧
    HotStandby.statsLe st2.stats (HotStandby.reload st2 t).1.stats ∧
    HotStandby.statsLe st2.stats (HotStandby.rebuildComplete st2 idx2 u).stats ∧
    HotStandby.statsLe st2.stats (HotStandby.getStats st2).1.stats ∧
    (st1.crashCount ≤ (ColdRestart.processFrame st1 invoke1).1.crashCount ∧
     st1.totalFrames ≤ (ColdRestart.processFrame st1 invoke1).1.totalFrames) ∧
    (st1.crashCount ≤ (ColdRestart.reload st1 v).1.crashCount ∧
     st1.totalFrames ≤ (ColdRestart.reload st1 v).1.totalFrames) ∧
    (st1.crashCount ≤ (ColdRestart.getStats st1).1.crashCount ∧
     st1.totalFrames ≤ (ColdRestart.getStats st1).1.totalFrames) := by
  refine ⟨Tmr.statsLe_vote s3 res, ?_, ?_, ?_, ?_, ?_, ?_, ?_, ?_, ?_, ?_, ?_⟩
  · rcases Tmr.processFrame_stats_shape st3 invoke3 with hs | ⟨k2, hs | ⟨res2, hs⟩⟩ <;>
      rw [hs]
    · unfold Tmr.statsLe
      omega
    · unfold Tmr.statsLe
      refine ⟨?_, ?_, ?_, ?_, ?_, ?_⟩ <;> simp
    · refine Tmr.statsLe_trans _ _ _ ?_ (Tmr.statsLe_vote _ _)
      unfold Tmr.statsLe
      refine ⟨?_, ?_, ?_, ?_, ?_, ?_⟩ <;> simp
  · unfold Tmr.reload
    rcases hmod : st3.compiledModule with _ | mm <;>
      (unfold Tmr.statsLe; refine ⟨?_, ?_, ?_, ?_, ?_, ?_⟩ <;> simp)
  · unfold Tmr.rebuildComplete
    rcases hmod : st3.compiledModule with _ | mm <;>
      (unfold Tmr.statsLe; refine ⟨?_, ?_, ?_, ?_, ?_, ?_⟩ <;> simp)
  · unfold Tmr.getStats Tmr.statsLe
    exact ⟨le_refl _, le_refl _, le_refl _, le_refl _, le_refl _, le_refl _⟩
  · unfold HotStandby.processFrame
    by_cases g : st2.pool st2.activeIndex = none
    · rw [if_pos g]
      unfold HotStandby.statsLe
      exact ⟨le_refl _, le_refl _, le_refl _, le_refl _⟩
    · rw [if_neg g]
      cases hv : invoke2 st2.activeIndex <;> dsimp only [] <;>
        (try split_ifs) <;> (unfold HotStandby.statsLe; refine ⟨?_, ?_, ?_, ?_⟩ <;> simp)
  · unfold HotStandby.reload
    rcases hmod : st2.compiledModule with _ | mm <;>
      (unfold HotStandby.statsLe; refine ⟨?_, ?_, ?_, ?_⟩ <;> simp)
  · unfold HotStandby.rebuildComplete
    rcases hmod : st2.compiledModule with _ | mm <;>
      (unfold HotStandby.statsLe; refine ⟨?_, ?_, ?_, ?_⟩ <;> simp)
  · unfold HotStandby.getStats HotStandby.statsLe
    exact ⟨le_refl _, le_refl _, le_refl _, le_refl _⟩
  · unfold ColdRestart.processFrame
    by_cases g : st1.inst = none
    · rw [if_pos g]
      exact ⟨le_refl _, le_refl _⟩
    · rw [if_neg g]
      cases hv : invoke1 <;> dsimp only [] <;> (try split_ifs) <;>
        (try rcases hmod : st1.compiledModule with _ | mm) <;>
        refine ⟨?_, ?_⟩ <;> simp
  · unfold ColdRestart.reload
    rcases hmod : st1.compiledModule with _ | mm <;> (refine ⟨?_, ?_⟩ <;> simp)
  · unfold ColdRestart.getStats
    exact ⟨le_refl _, le_refl _⟩
